import Mathlib

/-!
# Verification of the winix CLI session/configuration lifecycle

Shallow embedding of `src/winix/cmd.py` (the `Configuration` credential
store and the command classes `LoginCmd`, `DevicesCmd`, `FanCmd`,
`PowerCmd`, `RefreshCmd`), together with spec-modelled shapes for the
`winix` package members imported by `cmd.py` but not present under
`src/` (`WinixAuthResponse`, `WinixDeviceStub`, and the remote clients
`login`/`refresh`/`WinixAccount`/`WinixDevice`).

Remote calls are modelled by an oracle supplying each call's outcome;
command execution is a pure function returning the trace of observable
events (remote calls and file saves) together with the command's result.
Errors are Python exceptions: the code raises builtin exceptions
(`AttributeError`, `IndexError`, `TypeError`, ...).  The spec names an
idealised error taxonomy (`NoSessionError`, `NoDeviceError`,
`ConfigUnreadable`, ...); those names are included as distinct error
values so that claims about them can be stated and settled against what
the code actually raises.
-/

namespace Winix

/-- A parsed JSON value, as produced by Python's `json.load`: the
configuration file only ever holds objects, arrays, strings and null,
so integers stand in for JSON numbers (no claim involves numerics). -/
inductive JsonValue where
  | null : JsonValue
  | bool (b : Bool) : JsonValue
  | num (n : Int) : JsonValue
  | str (s : String) : JsonValue
  | arr (elems : List JsonValue) : JsonValue
  | obj (fields : List (String × JsonValue)) : JsonValue

/-- Python-dict key lookup on the field list of a JSON object
(`js.get(key)` / `js[key]`); `json.load` never yields duplicate keys. -/
def jsonGet (fields : List (String × JsonValue)) (key : String) : Option JsonValue :=
  match fields with
  | [] => none
  | (k, v) :: rest => if k = key then some v else jsonGet rest key

/-- Errors a command can terminate with.  The first group are the Python
builtin exceptions the code in `cmd.py` actually lets propagate; the
second group are the error names the specification's taxonomy (§7)
assigns, which no code in the repository defines or raises — they are
present only so that claims mentioning them are statable. -/
inductive PyError where
  | attributeError : PyError
  | indexError : PyError
  | typeError : PyError
  | keyError : PyError
  | jsonDecodeError : PyError
  | authenticationFailed : PyError
  | controlRejected : PyError
  | noSessionError : PyError
  | noDeviceError : PyError
  | configUnreadable : PyError
  deriving DecidableEq

/-- Modelled from the spec: `WinixAuthResponse` lives in `winix/auth.py`,
which is not under `src/`.  Spec §3 gives the Session shape
`{ userId, accessToken, refreshToken, idToken? }` and §6 shows the
persisted `cognito` object with snake_case keys
`user_id`, `access_token`, `refresh_token`, `...`.  Fields hold raw JSON
values because Python dataclasses do not check field types at runtime. -/
structure WinixAuthResponse where
  user_id : JsonValue
  access_token : JsonValue
  refresh_token : JsonValue
  id_token : JsonValue

/-- Modelled from the spec: `WinixDeviceStub` lives in the `winix`
package, not under `src/`.  Spec §3/§6 give the DeviceRecord shape
`{ id, mac, alias, location_code }` (all required). -/
structure WinixDeviceStub where
  id : JsonValue
  mac : JsonValue
  «alias» : JsonValue
  location_code : JsonValue

/-- The in-memory `Configuration` object of `cmd.py` (lines 20-52):
`exists` (spelled `existsOnDisk`, `exists` being a Lean keyword),
`cognito` and `devices`. -/
structure Configuration where
  existsOnDisk : Bool
  cognito : Option WinixAuthResponse
  devices : List WinixDeviceStub

/-- `WinixAuthResponse(**d)`: Python keyword-argument construction of the
dataclass from a JSON object.  It raises `TypeError` if the argument is
not a mapping, if a required field (`user_id`, `access_token`,
`refresh_token`) is missing, or if an unexpected keyword is present;
`id_token` is the optional field (spec: `idToken?`), defaulting to null. -/
def authResponseFromJson : JsonValue → Except PyError WinixAuthResponse
  | JsonValue.obj fields =>
    if fields.all (fun kv =>
        kv.1 = "user_id" ∨ kv.1 = "access_token" ∨ kv.1 = "refresh_token" ∨ kv.1 = "id_token") then
      match jsonGet fields "user_id", jsonGet fields "access_token",
            jsonGet fields "refresh_token" with
      | some u, some a, some r =>
        Except.ok ⟨u, a, r, (jsonGet fields "id_token").getD JsonValue.null⟩
      | _, _, _ => Except.error PyError.typeError
    else Except.error PyError.typeError
  | _ => Except.error PyError.typeError

/-- `WinixDeviceStub(**d)`: keyword-argument construction from a JSON
object; all four fields are required, no extra keys are accepted. -/
def deviceStubFromJson : JsonValue → Except PyError WinixDeviceStub
  | JsonValue.obj fields =>
    if fields.all (fun kv =>
        kv.1 = "id" ∨ kv.1 = "mac" ∨ kv.1 = "alias" ∨ kv.1 = "location_code") then
      match jsonGet fields "id", jsonGet fields "mac",
            jsonGet fields "alias", jsonGet fields "location_code" with
      | some i, some m, some a, some l => Except.ok ⟨i, m, a, l⟩
      | _, _, _, _ => Except.error PyError.typeError
    else Except.error PyError.typeError
  | _ => Except.error PyError.typeError

/-- The list comprehension body: `WinixDeviceStub(**d)` applied to each
element in order, the first exception propagating. -/
def deviceListFromJson : List JsonValue → Except PyError (List WinixDeviceStub)
  | [] => Except.ok []
  | v :: rest =>
    match deviceStubFromJson v with
    | Except.error e => Except.error e
    | Except.ok d =>
      match deviceListFromJson rest with
      | Except.error e => Except.error e
      | Except.ok ds => Except.ok (d :: ds)

/-- `[WinixDeviceStub(**d) for d in js.get('devices', [])]`: Python
iterates the value bound to `devices`.  A JSON array iterates its
elements; a string iterates its characters and a non-empty object its
keys, so any non-empty such value feeds a non-mapping to `**` and raises
`TypeError`, while the empty ones yield `[]`; null and numbers are not
iterable (`TypeError`). -/
def devicesFromJson : JsonValue → Except PyError (List WinixDeviceStub)
  | JsonValue.arr elems => deviceListFromJson elems
  | JsonValue.str s => if s = "" then Except.ok [] else Except.error PyError.typeError
  | JsonValue.obj [] => Except.ok []
  | JsonValue.obj (_ :: _) => Except.error PyError.typeError
  | _ => Except.error PyError.typeError

/-- `WinixAuthResponse(**js['cognito']) if js.get('cognito') is not None
else None` (cmd.py line 39), as a function of the looked-up `cognito`
value. -/
def cognitoFromJson : Option JsonValue → Except PyError (Option WinixAuthResponse)
  | none => Except.ok none
  | some JsonValue.null => Except.ok none
  | some v => (authResponseFromJson v).map some

/-- The device list built from the looked-up `devices` value; the lookup
default is `[]` (`js.get('devices', [])`, cmd.py line 40). -/
def devicesFieldFromJson : Option JsonValue → Except PyError (List WinixDeviceStub)
  | none => Except.ok []
  | some v => devicesFromJson v

/-- `Configuration._load_from_disk` (cmd.py lines 34-44).  The argument
is `none` when no file exists at the config path, otherwise the value
parsed by `json.load` (a file that is not valid JSON is represented by
the parse failure `Except.error PyError.jsonDecodeError` upstream of
this function, see `loadConfigFile`).  A parsed document that is not an
object makes `js.get` raise `AttributeError`; the `cognito` field is
processed before `devices`, and the first exception propagates. -/
def loadFromDisk : Option JsonValue → Except PyError Configuration
  | none => Except.ok ⟨false, none, []⟩
  | some (JsonValue.obj fields) =>
    match cognitoFromJson (jsonGet fields "cognito") with
    | Except.error e => Except.error e
    | Except.ok cognito =>
      match devicesFieldFromJson (jsonGet fields "devices") with
      | Except.error e => Except.error e
      | Except.ok devices => Except.ok ⟨true, cognito, devices⟩
  | some _ => Except.error PyError.attributeError

/-- The contents of the config file as load sees them: no file, a file
whose bytes are not valid JSON (`json.load` raises `JSONDecodeError`),
or a file parsing to a JSON value. -/
inductive ConfigFile where
  | absent : ConfigFile
  | invalidJson : ConfigFile
  | parsed (js : JsonValue) : ConfigFile

/-- `Configuration.__init__` + `_load_from_disk` over the three possible
file states. -/
def loadConfigFile : ConfigFile → Except PyError Configuration
  | ConfigFile.absent => loadFromDisk none
  | ConfigFile.invalidJson => Except.error PyError.jsonDecodeError
  | ConfigFile.parsed js => loadFromDisk (some js)

/-- `dataclasses.asdict` image of a `WinixAuthResponse`, as serialised by
`Configuration.save`'s `JSONEncoder` (cmd.py lines 15-17, 49-52). -/
def authResponseToJson (s : WinixAuthResponse) : JsonValue :=
  JsonValue.obj [("user_id", s.user_id), ("access_token", s.access_token),
    ("refresh_token", s.refresh_token), ("id_token", s.id_token)]

/-- `dataclasses.asdict` image of a `WinixDeviceStub`. -/
def deviceStubToJson (d : WinixDeviceStub) : JsonValue :=
  JsonValue.obj [("id", d.id), ("mac", d.mac), ("alias", d.«alias»),
    ("location_code", d.location_code)]

/-- The JSON document `Configuration.save` (cmd.py lines 46-52) writes:
`{'cognito': ..., 'devices': [...]}` with dataclasses expanded by the
custom encoder and `None` serialised as null. -/
def saveToJson (cfg : Configuration) : JsonValue :=
  JsonValue.obj
    [("cognito", match cfg.cognito with
        | none => JsonValue.null
        | some s => authResponseToJson s),
     ("devices", JsonValue.arr (cfg.devices.map deviceStubToJson))]

/-! ## File permission constants used by `Configuration.save`

`save` (cmd.py lines 46-48) runs
`makedirs(path.dirname(self.config_path), mode=0o755, exist_ok=True)` and
`open(os.open(self.config_path, os.O_CREAT | os.O_WRONLY, 0o755), 'w')`.
Modes are in POSIX bit layout: owner = bits 8-6, group = bits 5-3,
other = bits 2-0. -/

/-- The `mode` argument `save` passes to `makedirs` for the parent
directory: `0o755`. -/
def saveDirMode : Nat := 0o755

/-- The `mode` argument `save` passes to `os.open` when creating the
config file: `0o755`. -/
def saveFileMode : Nat := 0o755

/-- The group and other permission bits of a POSIX mode (the low six
bits); a mode is owner-accessible-only exactly when these are all 0. -/
def groupOtherBits (mode : Nat) : Nat := mode % 64

/-- The flag bits `save` passes to `os.open`; `O_CREAT` and `O_WRONLY`
only — `O_TRUNC` is absent. -/
inductive OpenFlag where
  | O_CREAT : OpenFlag
  | O_WRONLY : OpenFlag
  | O_TRUNC : OpenFlag
  deriving DecidableEq

/-- The open-flag set in `os.open(self.config_path, os.O_CREAT | os.O_WRONLY, 0o755)`. -/
def saveOpenFlags : List OpenFlag := [OpenFlag.O_CREAT, OpenFlag.O_WRONLY]

/-- POSIX semantics of opening a file with `flags` (file contents `old`,
`none` if absent) and writing bytes `written` starting at offset 0:
without `O_TRUNC`, bytes of the old file past the end of the written
data remain. -/
def fileAfterWrite (flags : List OpenFlag) (old : Option (List Nat))
    (written : List Nat) : List Nat :=
  let base := if flags.contains OpenFlag.O_TRUNC then [] else old.getD []
  written ++ base.drop written.length

/-! ## Byte-level model of the config file text

`Configuration.save` serialises with `json.dump` and
`Configuration._load_from_disk` parses with `json.load`, both from
Python's standard `json` module (an external collaborator).  The encoder
below produces `json.dump`'s exact output for the documents `save`
writes (default separators `', '` and `': '`, `ensure_ascii` escaping),
and the parser accepts one JSON document; `jsonLoadChars` rejects a file
with trailing non-whitespace data, as `json.load` does with its
"Extra data" `JSONDecodeError`.  Two simplifications, unreachable from
every input used in the theorems: JSON numbers are modelled as integers
(no claim involves floats), and the decoder does not recombine `\uXXXX`
surrogate pairs. -/

/-- The double-quote character. -/
def qChar : Char := Char.ofNat 34

/-- The backslash character. -/
def bsChar : Char := Char.ofNat 92

/-- The opening curly-brace character. -/
def lbChar : Char := Char.ofNat 123

/-- The closing curly-brace character. -/
def rbChar : Char := Char.ofNat 125

/-- One hexadecimal digit, lowercase, as `json.dump` prints them. -/
def hexDigitChar (n : Nat) : Char :=
  if n < 10 then Char.ofNat (48 + n) else Char.ofNat (87 + n)

/-- The four hexadecimal digits of a `\uXXXX` escape. -/
def hex4 (n : Nat) : List Char :=
  [hexDigitChar (n / 4096 % 16), hexDigitChar (n / 256 % 16),
   hexDigitChar (n / 16 % 16), hexDigitChar (n % 16)]

/-- `json.dump`'s escaping of one character (`ensure_ascii=True`):
quote, backslash and control characters escaped, other ASCII literal,
non-ASCII as `\uXXXX` (a surrogate pair beyond the basic plane). -/
def escapeChar (c : Char) : List Char :=
  if c = qChar then [bsChar, qChar]
  else if c = bsChar then [bsChar, bsChar]
  else if c.toNat = 10 then [bsChar, 'n']
  else if c.toNat = 13 then [bsChar, 'r']
  else if c.toNat = 9 then [bsChar, 't']
  else if c.toNat = 8 then [bsChar, 'b']
  else if c.toNat = 12 then [bsChar, 'f']
  else if c.toNat < 32 then bsChar :: 'u' :: hex4 c.toNat
  else if c.toNat < 128 then [c]
  else if c.toNat < 65536 then bsChar :: 'u' :: hex4 c.toNat
  else (bsChar :: 'u' :: hex4 (55296 + (c.toNat - 65536) / 1024)) ++
       (bsChar :: 'u' :: hex4 (56320 + (c.toNat - 65536) % 1024))

/-- A JSON string literal: quote, escaped characters, quote. -/
def encodeStringChars (s : String) : List Char :=
  qChar :: (s.toList.map escapeChar).flatten ++ [qChar]

mutual

/-- The characters `json.dump` writes for one document (default
separators: `', '` between items, `': '` after keys). -/
def encodeJson : JsonValue → List Char
  | JsonValue.null => ['n', 'u', 'l', 'l']
  | JsonValue.bool true => ['t', 'r', 'u', 'e']
  | JsonValue.bool false => ['f', 'a', 'l', 's', 'e']
  | JsonValue.num n => (toString n).toList
  | JsonValue.str s => encodeStringChars s
  | JsonValue.arr elems => '[' :: encodeElems elems ++ [']']
  | JsonValue.obj fields => lbChar :: encodeMembers fields ++ [rbChar]

/-- Array elements, comma-space separated. -/
def encodeElems : List JsonValue → List Char
  | [] => []
  | [v] => encodeJson v
  | v :: rest => encodeJson v ++ ',' :: ' ' :: encodeElems rest

/-- Object members, `"key": value`, comma-space separated. -/
def encodeMembers : List (String × JsonValue) → List Char
  | [] => []
  | [(k, v)] => encodeStringChars k ++ ':' :: ' ' :: encodeJson v
  | (k, v) :: rest =>
    encodeStringChars k ++ ':' :: ' ' :: encodeJson v ++ ',' :: ' ' :: encodeMembers rest

end

/-- JSON insignificant whitespace: space, newline, tab, carriage
return. -/
def isWsChar (c : Char) : Bool :=
  c = ' ' || c.toNat = 10 || c.toNat = 9 || c.toNat = 13

/-- Drop leading JSON whitespace. -/
def dropWs : List Char → List Char
  | [] => []
  | c :: rest => if isWsChar c then dropWs rest else c :: rest

/-- The value of one hexadecimal digit, if the character is one. -/
def hexCharVal (c : Char) : Option Nat :=
  if 48 ≤ c.toNat ∧ c.toNat ≤ 57 then some (c.toNat - 48)
  else if 97 ≤ c.toNat ∧ c.toNat ≤ 102 then some (c.toNat - 87)
  else if 65 ≤ c.toNat ∧ c.toNat ≤ 70 then some (c.toNat - 55)
  else none

/-- The character denoted by a single-character JSON escape. -/
def unescapeChar (c : Char) : Option Char :=
  if c = qChar then some qChar
  else if c = bsChar then some bsChar
  else if c = '/' then some '/'
  else if c = 'n' then some (Char.ofNat 10)
  else if c = 't' then some (Char.ofNat 9)
  else if c = 'r' then some (Char.ofNat 13)
  else if c = 'b' then some (Char.ofNat 8)
  else if c = 'f' then some (Char.ofNat 12)
  else none

/-- Parse a JSON string body (after the opening quote) up to the closing
quote, decoding escapes; unescaped control characters are invalid. -/
def parseStrChars : List Char → Option (List Char × List Char)
  | [] => none
  | c :: rest =>
    if c = qChar then some ([], rest)
    else if c = bsChar then
      match rest with
      | [] => none
      | e :: rest2 =>
        if e = 'u' then
          match rest2 with
          | a :: b :: c3 :: d :: rest3 =>
            match hexCharVal a, hexCharVal b, hexCharVal c3, hexCharVal d with
            | some x1, some x2, some x3, some x4 =>
              (parseStrChars rest3).map
                (fun p => (Char.ofNat (4096 * x1 + 256 * x2 + 16 * x3 + x4) :: p.1, p.2))
            | _, _, _, _ => none
          | _ => none
        else
          match unescapeChar e with
          | some u => (parseStrChars rest2).map (fun p => (u :: p.1, p.2))
          | none => none
    else if c.toNat < 32 then none
    else (parseStrChars rest).map (fun p => (c :: p.1, p.2))

/-- Accumulate decimal digits. -/
def parseDigitsAux : Nat → List Char → Nat × List Char
  | acc, [] => (acc, [])
  | acc, c :: rest =>
    if c.isDigit then parseDigitsAux (10 * acc + (c.toNat - 48)) rest else (acc, c :: rest)

/-- Parse an integer JSON number (optional minus sign, digits). -/
def parseNum : List Char → Option (Int × List Char)
  | [] => none
  | c :: rest =>
    if c = '-' then
      match rest with
      | [] => none
      | c2 :: rest2 =>
        if c2.isDigit then
          let p := parseDigitsAux (c2.toNat - 48) rest2
          some (-(p.1 : Int), p.2)
        else none
    else if c.isDigit then
      let p := parseDigitsAux (c.toNat - 48) rest
      some ((p.1 : Int), p.2)
    else none

mutual

/-- Parse one JSON value; the fuel bounds recursion depth and is
generously provisioned by the callers. -/
def parseJsonVal : Nat → List Char → Option (JsonValue × List Char)
  | 0, _ => none
  | fuel + 1, s =>
    match dropWs s with
    | 'n' :: 'u' :: 'l' :: 'l' :: rest => some (JsonValue.null, rest)
    | 't' :: 'r' :: 'u' :: 'e' :: rest => some (JsonValue.bool true, rest)
    | 'f' :: 'a' :: 'l' :: 's' :: 'e' :: rest => some (JsonValue.bool false, rest)
    | c :: rest =>
      if c = qChar then
        (parseStrChars rest).map (fun p => (JsonValue.str (String.mk p.1), p.2))
      else if c = '[' then
        match dropWs rest with
        | ']' :: r2 => some (JsonValue.arr [], r2)
        | _ => (parseArrayItems fuel rest).map (fun p => (JsonValue.arr p.1, p.2))
      else if c = lbChar then
        match dropWs rest with
        | r :: r2 =>
          if r = rbChar then some (JsonValue.obj [], r2)
          else (parseObjMembers fuel rest).map (fun p => (JsonValue.obj p.1, p.2))
        | [] => none
      else (parseNum (c :: rest)).map (fun p => (JsonValue.num p.1, p.2))
    | [] => none

/-- Parse the elements of a non-empty JSON array up to the closing
bracket. -/
def parseArrayItems : Nat → List Char → Option (List JsonValue × List Char)
  | 0, _ => none
  | fuel + 1, s =>
    match parseJsonVal fuel s with
    | none => none
    | some (v, r) =>
      match dropWs r with
      | ',' :: r2 => (parseArrayItems fuel r2).map (fun p => (v :: p.1, p.2))
      | ']' :: r2 => some ([v], r2)
      | _ => none

/-- Parse the members of a non-empty JSON object up to the closing
brace. -/
def parseObjMembers : Nat → List Char → Option (List (String × JsonValue) × List Char)
  | 0, _ => none
  | fuel + 1, s =>
    match dropWs s with
    | c :: rest =>
      if c = qChar then
        match parseStrChars rest with
        | none => none
        | some (kcs, r1) =>
          match dropWs r1 with
          | ':' :: r2 =>
            match parseJsonVal fuel r2 with
            | none => none
            | some (v, r3) =>
              match dropWs r3 with
              | ',' :: r4 =>
                (parseObjMembers fuel r4).map (fun p => ((String.mk kcs, v) :: p.1, p.2))
              | r5 :: r4 => if r5 = rbChar then some ([(String.mk kcs, v)], r4) else none
              | [] => none
          | _ => none
      else none
    | [] => none

end

/-- `json.load` on the characters of a file: parse one document, then
require only whitespace to remain ("Extra data" otherwise). -/
def jsonLoadChars (s : List Char) : Except PyError JsonValue :=
  match parseJsonVal (2 * s.length + 2) s with
  | none => Except.error PyError.jsonDecodeError
  | some (v, rest) =>
    if dropWs rest = [] then Except.ok v else Except.error PyError.jsonDecodeError

/-- The bytes `Configuration.save` hands to the file write: `json.dump`'s
serialization of the saved document. -/
def saveBytes (cfg : Configuration) : List Nat :=
  (encodeJson (saveToJson cfg)).map Char.toNat

/-- Byte-level load: `json.load` on the file's bytes followed by
`_load_from_disk`'s field processing (`loadFromDisk`). -/
def loadFromBytes (bytes : List Nat) : Except PyError Configuration :=
  match jsonLoadChars (bytes.map Char.ofNat) with
  | Except.error e => Except.error e
  | Except.ok js => loadFromDisk (some js)

/-- The file contents after `Configuration.save` runs against a path
whose prior contents are `old`: the no-truncate offset-0 write of
`saveBytes` (see `saveOpenFlags`/`fileAfterWrite`). -/
def fileAfterSave (old : Option (List Nat)) (cfg : Configuration) : List Nat :=
  fileAfterWrite saveOpenFlags old (saveBytes cfg)

/-! ## Remote collaborators and command execution

The remote calls `cmd.py` makes — `login`, `refresh` (winix/auth.py) and
`WinixAccount.register_user` / `check_access_token` /
`get_device_info_list`, `WinixDevice.<level>` / `.on` / `.off` (winix
package) — are external network calls whose bodies are not under `src/`.
They are modelled by an oracle giving each call's outcome.  Command
execution returns the list of observable events in order (each remote
call attempted, and each `Configuration.save`) together with the
command's result. -/

/-- One observable side effect of a command execution. -/
inductive Event where
  | loginCall (username password : String) : Event
  | registerUserCall (username : String) : Event
  | checkAccessTokenCall : Event
  | getDeviceListCall : Event
  | refreshCall (user_id refresh_token : JsonValue) : Event
  | fanCall (deviceId : JsonValue) (level : String) : Event
  | powerCall (deviceId : JsonValue) (state : String) : Event
  | saveCall (cfg : Configuration) : Event

/-- Outcomes of the remote collaborators' calls for one command
execution (Auth Client, Device Directory Client, Device Control
Client). -/
structure Oracle where
  loginResult : String → String → Except PyError WinixAuthResponse
  registerUserResult : String → Except PyError Unit
  checkAccessTokenResult : Except PyError Unit
  getDeviceInfoListResult : Except PyError (List WinixDeviceStub)
  refreshResult : JsonValue → JsonValue → Except PyError WinixAuthResponse
  controlResult : Except PyError Unit

/-- The on-disk configuration after a trace of events: the payload of
the last `saveCall`, or the prior disk contents if no save happened. -/
def persistedAfter (disk : Option Configuration) : List Event → Option Configuration
  | [] => disk
  | Event.saveCall cfg :: rest => persistedAfter (some cfg) rest
  | _ :: rest => persistedAfter disk rest

/-- Number of `saveCall` events in a trace. -/
def saveCount : List Event → Nat
  | [] => 0
  | Event.saveCall _ :: rest => saveCount rest + 1
  | _ :: rest => saveCount rest

/-- `LoginCmd._login` (cmd.py lines 80-90): call `login`, construct a
`WinixAccount`, call `register_user`, `check_access_token`,
`get_device_info_list`, then `save` once.  Any exception from a remote
call propagates, aborting the command with no further events. -/
def loginRun (o : Oracle) (username password : String) (cfg : Configuration) :
    List Event × Except PyError Configuration :=
  match o.loginResult username password with
  | Except.error e => ([Event.loginCall username password], Except.error e)
  | Except.ok session =>
    let cfg1 : Configuration := { cfg with cognito := some session }
    match o.registerUserResult username with
    | Except.error e =>
      ([Event.loginCall username password, Event.registerUserCall username], Except.error e)
    | Except.ok _ =>
      match o.checkAccessTokenResult with
      | Except.error e =>
        ([Event.loginCall username password, Event.registerUserCall username,
          Event.checkAccessTokenCall], Except.error e)
      | Except.ok _ =>
        match o.getDeviceInfoListResult with
        | Except.error e =>
          ([Event.loginCall username password, Event.registerUserCall username,
            Event.checkAccessTokenCall, Event.getDeviceListCall], Except.error e)
        | Except.ok deviceList =>
          let cfg2 : Configuration := { cfg1 with devices := deviceList }
          ([Event.loginCall username password, Event.registerUserCall username,
            Event.checkAccessTokenCall, Event.getDeviceListCall, Event.saveCall cfg2],
           Except.ok cfg2)

/-- `LoginCmd._refresh` (cmd.py lines 92-99): evaluates
`self.config.cognito.user_id` before any remote call, so a missing
session raises `AttributeError` on `None` with no call made; otherwise
calls `refresh`, replaces `cognito`, calls `check_access_token`, then
saves once. -/
def refreshRun (o : Oracle) (cfg : Configuration) :
    List Event × Except PyError Configuration :=
  match cfg.cognito with
  | none => ([], Except.error PyError.attributeError)
  | some session =>
    match o.refreshResult session.user_id session.refresh_token with
    | Except.error e =>
      ([Event.refreshCall session.user_id session.refresh_token], Except.error e)
    | Except.ok newSession =>
      let cfg1 : Configuration := { cfg with cognito := some newSession }
      match o.checkAccessTokenResult with
      | Except.error e =>
        ([Event.refreshCall session.user_id session.refresh_token,
          Event.checkAccessTokenCall], Except.error e)
      | Except.ok _ =>
        ([Event.refreshCall session.user_id session.refresh_token,
          Event.checkAccessTokenCall, Event.saveCall cfg1], Except.ok cfg1)

/-- `LoginCmd.execute` (cmd.py lines 74-78): dispatch on the `--refresh`
flag. -/
def loginExecute (o : Oracle) (refreshFlag : Bool) (username password : String)
    (cfg : Configuration) : List Event × Except PyError Configuration :=
  if refreshFlag then refreshRun o cfg else loginRun o username password cfg

/-- `FanCmd.execute` (cmd.py lines 144-149): `self.config.device` is
`self.devices[0]` (lines 30-32), raising `IndexError` on an empty list
before `WinixDevice` is constructed or any remote call is made;
otherwise the fan-level method named by `level` is invoked on the
default device. -/
def fanRun (o : Oracle) (level : String) (cfg : Configuration) :
    List Event × Except PyError Configuration :=
  match cfg.devices with
  | [] => ([], Except.error PyError.indexError)
  | device :: _ =>
    match o.controlResult with
    | Except.error e => ([Event.fanCall device.id level], Except.error e)
    | Except.ok _ => ([Event.fanCall device.id level], Except.ok cfg)

/-- `PowerCmd` (cmd.py lines 152-160) registers the `power` subcommand
and its `state` argument (`on`/`off`) but defines no `execute` method,
and the base class `Cmd` (lines 55-58) defines none either; the
dispatcher in `main` (line 201) then raises `AttributeError` on
attribute lookup before any device call. -/
def powerRun (_o : Oracle) (_state : String) (_cfg : Configuration) :
    List Event × Except PyError Configuration :=
  ([], Except.error PyError.attributeError)

/-- `RefreshCmd.execute` (cmd.py lines 173-177): reads
`self.config.cognito.access_token` (AttributeError when no session),
fetches the device list, replaces `devices`, saves once. -/
def refreshDevicesRun (o : Oracle) (cfg : Configuration) :
    List Event × Except PyError Configuration :=
  match cfg.cognito with
  | none => ([], Except.error PyError.attributeError)
  | some _ =>
    match o.getDeviceInfoListResult with
    | Except.error e => ([Event.getDeviceListCall], Except.error e)
    | Except.ok deviceList =>
      let cfg1 : Configuration := { cfg with devices := deviceList }
      ([Event.getDeviceListCall, Event.saveCall cfg1], Except.ok cfg1)

/-! ## Sample values used to instantiate the theorems -/

/-- A concrete session as returned by the Auth Client. -/
def sampleSession : WinixAuthResponse :=
  ⟨JsonValue.str "user-1", JsonValue.str "access-1", JsonValue.str "refresh-1", JsonValue.null⟩

/-- A concrete session with fresh tokens, as returned by a refresh. -/
def sampleSession2 : WinixAuthResponse :=
  ⟨JsonValue.str "user-1", JsonValue.str "access-2", JsonValue.str "refresh-2", JsonValue.null⟩

/-- A concrete paired device. -/
def sampleDevice : WinixDeviceStub :=
  ⟨JsonValue.str "device-1", JsonValue.str "aa:bb:cc", JsonValue.str "living room",
   JsonValue.str "us"⟩

/-- The empty configuration: no session, no devices. -/
def emptyConfig : Configuration := ⟨false, none, []⟩

/-- A configuration with a session and one device. -/
def sampleConfig : Configuration := ⟨true, some sampleSession, [sampleDevice]⟩

/-- A second concrete paired device. -/
def sampleDevice2 : WinixDeviceStub :=
  ⟨JsonValue.str "device-2", JsonValue.str "dd:ee:ff", JsonValue.str "bedroom",
   JsonValue.str "us"⟩

/-- A configuration with a session and two devices; its serialization is
longer than `sampleConfig`'s. -/
def sampleConfigTwo : Configuration :=
  ⟨true, some sampleSession, [sampleDevice, sampleDevice2]⟩

/-- An oracle on which every remote call succeeds. -/
def sampleOracleOk : Oracle :=
  ⟨fun _ _ => Except.ok sampleSession, fun _ => Except.ok (), Except.ok (),
   Except.ok [sampleDevice], fun _ _ => Except.ok sampleSession2, Except.ok ()⟩

/-- An oracle on which the Auth Client rejects the login. -/
def sampleOracleLoginFail : Oracle :=
  { sampleOracleOk with
    loginResult := fun _ _ => Except.error PyError.authenticationFailed }

/-! ## Theorems -/

/-- C7: for every path at which no config file exists, load returns an
empty `Configuration` — no session, empty device list — and raises no
error. -/
theorem load_absent_file_yields_empty_config :
    loadConfigFile ConfigFile.absent =
      Except.ok { existsOnDisk := false, cognito := none, devices := [] } := rfl

/-- C6 counterexample: the claim "every call to save creates the config
file and its parent directory with owner-accessible permissions only (no
group/other access)" is false: both modes passed by
`Configuration.save` are `0o755`, whose group/other permission bits are
not zero. -/
theorem save_modes_not_owner_only :
    groupOtherBits saveFileMode ≠ 0 ∧ groupOtherBits saveDirMode ≠ 0 := by decide

/-- C6 amended: every call to save creates the config file and its
parent directory with mode `0o755` — owner read/write/execute, but group
and others are granted read and execute as well (group/other bits
`0o55`), so the permissions are not owner-only. -/
theorem save_modes_are_world_readable :
    saveFileMode = 0o755 ∧ saveDirMode = 0o755 ∧
    groupOtherBits saveFileMode = 0o55 ∧ groupOtherBits saveDirMode = 0o55 := by decide

/-- C1: running the power command never sends any on/off command to any
device: `PowerCmd` defines no `execute` method (and the base `Cmd` class
defines none), so the dispatcher's attribute lookup raises
`AttributeError` with an empty event trace, for every oracle, power
state and configuration — the claimed single on/off command to the
default device is never sent. -/
theorem power_command_raises_attributeError (o : Oracle) (state : String)
    (cfg : Configuration) :
    powerRun o state cfg = ([], Except.error PyError.attributeError) := rfl

/-- C3 counterexample: with no session, `login --refresh` fails with
`AttributeError` (attribute access on `None`), which is not the
`NoSessionError` the claim names. -/
theorem refresh_without_session_not_noSessionError :
    (loginExecute sampleOracleOk true "u" "p" emptyConfig).2 =
      Except.error PyError.attributeError ∧
    PyError.attributeError ≠ PyError.noSessionError := ⟨rfl, by decide⟩

/-- C3 amended: for every configuration with no session, `login
--refresh` fails — with Python's `AttributeError`, raised by evaluating
`self.config.cognito.user_id` on `None`, rather than a dedicated
`NoSessionError` — and the event trace is empty, so the Auth Client is
never contacted. -/
theorem refresh_without_session_fails_before_remote (o : Oracle) (u p : String)
    (cfg : Configuration) (h : cfg.cognito = none) :
    loginExecute o true u p cfg = ([], Except.error PyError.attributeError) := by
  simp only [loginExecute, if_true, refreshRun, h]

/-- C3 witness: the amended theorem applied to the empty configuration. -/
theorem refresh_without_session_fails_before_remote_witness :
    loginExecute sampleOracleOk true "u" "p" emptyConfig =
      ([], Except.error PyError.attributeError) :=
  refresh_without_session_fails_before_remote sampleOracleOk "u" "p" emptyConfig rfl

/-- C4 counterexample: with an empty device list, `fan high` fails with
`IndexError` (from `self.devices[0]`), which is not the `NoDeviceError`
the claim names. -/
theorem fan_without_devices_not_noDeviceError :
    (fanRun sampleOracleOk "high" emptyConfig).2 = Except.error PyError.indexError ∧
    PyError.indexError ≠ PyError.noDeviceError := ⟨rfl, by decide⟩

/-- C4 amended: for every configuration whose device list is empty, a fan
command fails — with Python's `IndexError`, raised by `self.devices[0]`
in the `Configuration.device` property, rather than a dedicated
`NoDeviceError` — and the event trace is empty, so no remote call
reaches the Device Control Client. -/
theorem fan_without_devices_fails_before_remote (o : Oracle) (level : String)
    (cfg : Configuration) (h : cfg.devices = []) :
    fanRun o level cfg = ([], Except.error PyError.indexError) := by
  simp only [fanRun, h]

/-- C4 witness: the amended theorem applied to the empty configuration. -/
theorem fan_without_devices_fails_before_remote_witness :
    fanRun sampleOracleOk "high" emptyConfig = ([], Except.error PyError.indexError) :=
  fan_without_devices_fails_before_remote sampleOracleOk "high" emptyConfig rfl

/-- C10: `save` opens the config file with `O_CREAT | O_WRONLY` and no
`O_TRUNC`, and writes the serialization at offset 0; consequently the
written bytes form the new prefix and every byte of a pre-existing file
beyond the length of the newly written data is unchanged on disk. -/
theorem save_write_no_truncate_preserves_tail (old written : List Nat) (i : Nat)
    (h : written.length ≤ i) :
    saveOpenFlags.contains OpenFlag.O_TRUNC = false ∧
    fileAfterWrite saveOpenFlags (some old) written =
      written ++ old.drop written.length ∧
    (fileAfterWrite saveOpenFlags (some old) written).getD i 0 = old.getD i 0 := by
  refine ⟨rfl, rfl, ?_⟩
  show (written ++ old.drop written.length).getD i 0 = old.getD i 0
  rw [List.getD_append_right _ _ _ _ h]
  simp [List.getD_eq_getElem?_getD, List.getElem?_drop, Nat.add_sub_cancel' h]

/-- C10 witness: a four-byte pre-existing file overwritten by two bytes
keeps its last byte. -/
theorem save_write_no_truncate_preserves_tail_witness :
    fileAfterWrite saveOpenFlags (some [1, 2, 3, 4]) [9, 9] = [9, 9, 3, 4] ∧
    (fileAfterWrite saveOpenFlags (some [1, 2, 3, 4]) [9, 9]).getD 3 0 =
      [1, 2, 3, 4].getD 3 0 :=
  ⟨rfl, (save_write_no_truncate_preserves_tail [1, 2, 3, 4] [9, 9] 3 (by decide)).2.2⟩

/-- Deserialising the serialised form of a session returns it
unchanged. -/
theorem authResponse_roundtrip (s : WinixAuthResponse) :
    authResponseFromJson (authResponseToJson s) = Except.ok s := rfl

/-- Deserialising the serialised form of a device stub returns it
unchanged. -/
theorem deviceStub_roundtrip (d : WinixDeviceStub) :
    deviceStubFromJson (deviceStubToJson d) = Except.ok d := rfl

/-- Deserialising a serialised device list returns it unchanged. -/
theorem deviceList_roundtrip (ds : List WinixDeviceStub) :
    deviceListFromJson (ds.map deviceStubToJson) = Except.ok ds := by
  induction ds with
  | nil => rfl
  | cons d rest ih => simp [deviceListFromJson, deviceStub_roundtrip, ih]

/-- C5 amended: for every configuration X, loading the exact document
that save serialises yields a configuration whose session and device
list equal those of X (the `exists` flag reports that the file is now
present); at the byte level this is the situation at a fresh path, while
a longer pre-existing file corrupts the written document (see the C5
counterexample). -/
theorem save_load_roundtrip (cfg : Configuration) :
    loadFromDisk (some (saveToJson cfg)) =
      Except.ok { cfg with existsOnDisk := true } := by
  rcases cfg with ⟨e, cognito, devices⟩
  have hdev : devicesFieldFromJson (some (JsonValue.arr (devices.map deviceStubToJson))) =
      Except.ok devices := by
    simp [devicesFieldFromJson, devicesFromJson, deviceList_roundtrip]
  cases cognito with
  | none =>
    simp [saveToJson, loadFromDisk, jsonGet, cognitoFromJson, hdev]
  | some s =>
    have hc : cognitoFromJson (some (authResponseToJson s)) = Except.ok (some s) := by
      show (authResponseFromJson (authResponseToJson s)).map some = Except.ok (some s)
      rw [authResponse_roundtrip]
      rfl
    simp [saveToJson, loadFromDisk, jsonGet, hc, hdev]

set_option maxRecDepth 100000 in
/-- C5 counterexample: the round-trip claim fails over a path with a
longer pre-existing file: saving `sampleConfig` where the file
previously held the longer serialization of `sampleConfigTwo` leaves the
old file's tail after the newly written document (the open has no
`O_TRUNC`), and loading from that path then fails with `JSONDecodeError`
("Extra data") instead of yielding `sampleConfig`. -/
theorem save_load_fails_on_longer_preexisting_file :
    loadFromBytes (fileAfterSave (some (saveBytes sampleConfigTwo)) sampleConfig) =
      Except.error PyError.jsonDecodeError := by rfl

set_option maxRecDepth 100000 in
/-- Byte-level sanity of the text model: at a fresh path the bytes save
writes parse back to exactly the saved configuration. -/
theorem save_load_bytes_fresh_path :
    loadFromBytes (fileAfterSave none sampleConfig) = Except.ok sampleConfig := by rfl

/-- C2: for every `login` invocation with `refresh=false`: if the Auth
Client rejects the login, the trace contains no save, so the on-disk
configuration stays as previously loaded; if the login and the
subsequent device-list call (with the intermediate account calls) all
succeed, the trace is exactly the four remote calls followed by a single
save whose payload carries the new session and the returned device
list. -/
theorem login_single_persist (o : Oracle) (u p : String) (cfg : Configuration)
    (disk : Option Configuration) :
    (∀ e, o.loginResult u p = Except.error e →
      persistedAfter disk (loginExecute o false u p cfg).1 = disk ∧
      saveCount (loginExecute o false u p cfg).1 = 0) ∧
    (∀ s ds, o.loginResult u p = Except.ok s →
      o.registerUserResult u = Except.ok () →
      o.checkAccessTokenResult = Except.ok () →
      o.getDeviceInfoListResult = Except.ok ds →
      (loginExecute o false u p cfg).1 =
        [Event.loginCall u p, Event.registerUserCall u, Event.checkAccessTokenCall,
         Event.getDeviceListCall,
         Event.saveCall { cfg with cognito := some s, devices := ds }] ∧
      saveCount (loginExecute o false u p cfg).1 = 1 ∧
      persistedAfter disk (loginExecute o false u p cfg).1 =
        some { cfg with cognito := some s, devices := ds }) := by
  constructor
  · intro e he
    simp [loginExecute, loginRun, he, persistedAfter, saveCount]
  · intro s ds h1 h2 h3 h4
    simp [loginExecute, loginRun, h1, h2, h3, h4, persistedAfter, saveCount]

/-- C2 witness: a rejected login against a loaded configuration leaves
the disk unchanged, and a fully successful login saves exactly once. -/
theorem login_single_persist_witness :
    persistedAfter (some sampleConfig)
      (loginExecute sampleOracleLoginFail false "u" "p" sampleConfig).1 =
      some sampleConfig ∧
    saveCount (loginExecute sampleOracleOk false "u" "p" emptyConfig).1 = 1 :=
  ⟨((login_single_persist sampleOracleLoginFail "u" "p" sampleConfig
      (some sampleConfig)).1 PyError.authenticationFailed rfl).1,
   ((login_single_persist sampleOracleOk "u" "p" emptyConfig none).2
      sampleSession [sampleDevice] rfl rfl rfl rfl).2.1⟩

/-- C9: for every configuration with an existing session, a successful
`login --refresh` replaces the session with the one the Auth Client
returned and persists in a single save, while the device list — both in
the in-memory configuration and in the persisted payload — is exactly
the one loaded. -/
theorem refresh_replaces_session_preserves_devices (o : Oracle) (u p : String)
    (cfg : Configuration) (disk : Option Configuration) (s s' : WinixAuthResponse)
    (h : cfg.cognito = some s)
    (hr : o.refreshResult s.user_id s.refresh_token = Except.ok s')
    (hc : o.checkAccessTokenResult = Except.ok ()) :
    loginExecute o true u p cfg =
      ([Event.refreshCall s.user_id s.refresh_token, Event.checkAccessTokenCall,
        Event.saveCall { cfg with cognito := some s' }],
       Except.ok { cfg with cognito := some s' }) ∧
    persistedAfter disk (loginExecute o true u p cfg).1 =
      some { cfg with cognito := some s' } ∧
    ({ cfg with cognito := some s' } : Configuration).devices = cfg.devices := by
  refine ⟨?_, ?_, rfl⟩ <;>
    simp [loginExecute, refreshRun, h, hr, hc, persistedAfter]

/-- C9 witness: the theorem applied to the sample configuration and the
all-succeeding oracle. -/
theorem refresh_replaces_session_preserves_devices_witness :
    loginExecute sampleOracleOk true "u" "p" sampleConfig =
      ([Event.refreshCall sampleSession.user_id sampleSession.refresh_token,
        Event.checkAccessTokenCall,
        Event.saveCall { sampleConfig with cognito := some sampleSession2 }],
       Except.ok { sampleConfig with cognito := some sampleSession2 }) ∧
    persistedAfter (some sampleConfig)
      (loginExecute sampleOracleOk true "u" "p" sampleConfig).1 =
      some { sampleConfig with cognito := some sampleSession2 } ∧
    ({ sampleConfig with cognito := some sampleSession2 } : Configuration).devices =
      sampleConfig.devices :=
  refresh_replaces_session_preserves_devices sampleOracleOk "u" "p" sampleConfig
    (some sampleConfig) sampleSession sampleSession2 rfl rfl rfl

/-- C8 counterexample: loading a file whose `cognito` object is missing
the required session fields fails with `TypeError` (Python's error for a
missing dataclass keyword argument), which is not the `ConfigUnreadable`
the claim names. -/
theorem load_malformed_session_not_configUnreadable :
    loadConfigFile (ConfigFile.parsed (JsonValue.obj
      [("cognito", JsonValue.obj [("access_token", JsonValue.str "a")])])) =
      Except.error PyError.typeError ∧
    PyError.typeError ≠ PyError.configUnreadable := ⟨rfl, by decide⟩

/-- A session object missing any required field fails the kwargs
construction with `TypeError`. -/
theorem authResponseFromJson_missing_required (d : List (String × JsonValue))
    (hmiss : jsonGet d "user_id" = none ∨ jsonGet d "access_token" = none ∨
      jsonGet d "refresh_token" = none) :
    authResponseFromJson (JsonValue.obj d) = Except.error PyError.typeError := by
  simp only [authResponseFromJson]
  split
  · rcases h1 : jsonGet d "user_id" with _ | u <;>
      rcases h2 : jsonGet d "access_token" with _ | a <;>
        rcases h3 : jsonGet d "refresh_token" with _ | r <;> simp_all
  · rfl

/-- Every failure of the session kwargs construction is a `TypeError`. -/
theorem authResponseFromJson_error_typeError (v : JsonValue) (e : PyError)
    (h : authResponseFromJson v = Except.error e) : e = PyError.typeError := by
  rcases v with _ | b | n | s | es | fs <;>
    simp only [authResponseFromJson, Except.error.injEq] at h
  · exact h.symm
  · exact h.symm
  · exact h.symm
  · exact h.symm
  · exact h.symm
  · split at h
    · rcases h1 : jsonGet fs "user_id" with _ | u <;>
        rcases h2 : jsonGet fs "access_token" with _ | a <;>
          rcases h3 : jsonGet fs "refresh_token" with _ | r <;> simp_all
    · simp_all

/-- Every failure of the device-stub kwargs construction is a
`TypeError`. -/
theorem deviceStubFromJson_error_typeError (v : JsonValue) (e : PyError)
    (h : deviceStubFromJson v = Except.error e) : e = PyError.typeError := by
  rcases v with _ | b | n | s | es | fs <;>
    simp only [deviceStubFromJson, Except.error.injEq] at h
  · exact h.symm
  · exact h.symm
  · exact h.symm
  · exact h.symm
  · exact h.symm
  · split at h
    · rcases h1 : jsonGet fs "id" with _ | i <;>
        rcases h2 : jsonGet fs "mac" with _ | m <;>
          rcases h3 : jsonGet fs "alias" with _ | a <;>
            rcases h4 : jsonGet fs "location_code" with _ | l <;> simp_all
    · simp_all

/-- Every failure of the device-list construction is a `TypeError`. -/
theorem deviceListFromJson_error_typeError (vs : List JsonValue) (e : PyError)
    (h : deviceListFromJson vs = Except.error e) : e = PyError.typeError := by
  induction vs with
  | nil => simp [deviceListFromJson] at h
  | cons x rest ih =>
    simp only [deviceListFromJson] at h
    rcases hx : deviceStubFromJson x with e1 | d
    · rw [hx] at h
      simp only [Except.error.injEq] at h
      exact h ▸ deviceStubFromJson_error_typeError x e1 hx
    · rw [hx] at h
      rcases hr : deviceListFromJson rest with e2 | ds
      · rw [hr] at h
        simp only [Except.error.injEq] at h
        exact h ▸ ih (h ▸ hr)
      · rw [hr] at h
        simp at h

/-- A device entry that is not a JSON object fails the kwargs
construction with `TypeError` (`**` needs a mapping). -/
theorem deviceStubFromJson_nonobj (w : JsonValue) (hno : ∀ fs, w ≠ JsonValue.obj fs) :
    deviceStubFromJson w = Except.error PyError.typeError := by
  rcases w with _ | b | n | s | es | fs
  · rfl
  · rfl
  · rfl
  · rfl
  · rfl
  · exact absurd rfl (hno fs)

/-- A device array containing an entry that is not an object fails with
`TypeError`. -/
theorem deviceListFromJson_nonobj_member (vs : List JsonValue) (w : JsonValue)
    (hmem : w ∈ vs) (hno : ∀ fs, w ≠ JsonValue.obj fs) :
    deviceListFromJson vs = Except.error PyError.typeError := by
  induction vs with
  | nil => cases hmem
  | cons x rest ih =>
    rcases List.mem_cons.mp hmem with hx | hx
    · have hw : deviceStubFromJson x = Except.error PyError.typeError :=
        hx ▸ deviceStubFromJson_nonobj w hno
      simp [deviceListFromJson, hw]
    · rcases hfirst : deviceStubFromJson x with e1 | d
      · have he1 : e1 = PyError.typeError := deviceStubFromJson_error_typeError x e1 hfirst
        subst he1
        simp [deviceListFromJson, hfirst]
      · simp [deviceListFromJson, hfirst, ih hx]

/-- Every failure of the `devices` iteration is a `TypeError`. -/
theorem devicesFromJson_error_typeError (v : JsonValue) (e : PyError)
    (h : devicesFromJson v = Except.error e) : e = PyError.typeError := by
  rcases v with _ | b | n | s | es | fs
  · simp only [devicesFromJson, Except.error.injEq] at h
    exact h.symm
  · simp only [devicesFromJson, Except.error.injEq] at h
    exact h.symm
  · simp only [devicesFromJson, Except.error.injEq] at h
    exact h.symm
  · simp only [devicesFromJson] at h
    split at h
    · simp at h
    · simp only [Except.error.injEq] at h
      exact h.symm
  · simp only [devicesFromJson] at h
    exact deviceListFromJson_error_typeError es e h
  · rcases fs with _ | ⟨kv, rest⟩
    · simp [devicesFromJson] at h
    · simp only [devicesFromJson, Except.error.injEq] at h
      exact h.symm

/-- On any non-null document the `cognito` processing is the kwargs
construction. -/
theorem cognitoFromJson_some_eq (v : JsonValue) (hv : v ≠ JsonValue.null) :
    cognitoFromJson (some v) = (authResponseFromJson v).map some := by
  rcases v with _ | b | n | s | es | fs
  · exact absurd rfl hv
  · rfl
  · rfl
  · rfl
  · rfl
  · rfl

/-- Every failure of the `cognito` field processing is a `TypeError`. -/
theorem cognitoFromJson_error_typeError (ov : Option JsonValue) (e : PyError)
    (h : cognitoFromJson ov = Except.error e) : e = PyError.typeError := by
  rcases ov with _ | v
  · simp [cognitoFromJson] at h
  · by_cases hv : v = JsonValue.null
    · subst hv
      simp [cognitoFromJson] at h
    · rw [cognitoFromJson_some_eq v hv] at h
      rcases ha : authResponseFromJson v with e1 | s1
      · rw [ha] at h
        simp only [Except.map, Except.error.injEq] at h
        exact h ▸ authResponseFromJson_error_typeError v e1 ha
      · rw [ha] at h
        simp [Except.map] at h

/-- Every failure of the `devices` field processing is a `TypeError`. -/
theorem devicesFieldFromJson_error_typeError (ov : Option JsonValue) (e : PyError)
    (h : devicesFieldFromJson ov = Except.error e) : e = PyError.typeError := by
  rcases ov with _ | v
  · simp [devicesFieldFromJson] at h
  · simp only [devicesFieldFromJson] at h
    exact devicesFromJson_error_typeError v e h

/-- Whenever loading a parsed document fails, the error is
`AttributeError` or `TypeError`. -/
theorem loadFromDisk_error_classification (v : JsonValue) (e : PyError)
    (h : loadFromDisk (some v) = Except.error e) :
    e = PyError.attributeError ∨ e = PyError.typeError := by
  rcases v with _ | b | n | s | es | fs
  · left
    simp only [loadFromDisk, Except.error.injEq] at h
    exact h.symm
  · left
    simp only [loadFromDisk, Except.error.injEq] at h
    exact h.symm
  · left
    simp only [loadFromDisk, Except.error.injEq] at h
    exact h.symm
  · left
    simp only [loadFromDisk, Except.error.injEq] at h
    exact h.symm
  · left
    simp only [loadFromDisk, Except.error.injEq] at h
    exact h.symm
  · right
    simp only [loadFromDisk] at h
    rcases hc : cognitoFromJson (jsonGet fs "cognito") with e1 | c
    · rw [hc] at h
      simp only [Except.error.injEq] at h
      exact h ▸ cognitoFromJson_error_typeError _ e1 hc
    · rw [hc] at h
      rcases hd : devicesFieldFromJson (jsonGet fs "devices") with e2 | ds
      · rw [hd] at h
        simp only [Except.error.injEq] at h
        exact h ▸ devicesFieldFromJson_error_typeError _ e2 hd
      · rw [hd] at h
        simp at h

/-- C8 amended: a config file that exists but does not hold valid data
of the expected shape makes load fail with a Python builtin exception,
not a dedicated `ConfigUnreadable`: a session object missing a required
field (`user_id`, `access_token` or `refresh_token`) fails with
`TypeError`; a device entry that is not an object fails with
`TypeError`; a document whose top level is not an object fails with
`AttributeError`; a file that is not valid JSON fails with
`JSONDecodeError`; and whenever load of any config file fails, the
error is one of `JSONDecodeError`, `AttributeError`, `TypeError`. -/
theorem load_invalid_config_fails_builtin_error
    (fields d : List (String × JsonValue)) (vs : List JsonValue)
    (v w : JsonValue) (c : Option WinixAuthResponse) (cf : ConfigFile) :
    (jsonGet fields "cognito" = some (JsonValue.obj d) →
      (jsonGet d "user_id" = none ∨ jsonGet d "access_token" = none ∨
        jsonGet d "refresh_token" = none) →
      loadFromDisk (some (JsonValue.obj fields)) = Except.error PyError.typeError) ∧
    (cognitoFromJson (jsonGet fields "cognito") = Except.ok c →
      jsonGet fields "devices" = some (JsonValue.arr vs) →
      w ∈ vs → (∀ fs, w ≠ JsonValue.obj fs) →
      loadFromDisk (some (JsonValue.obj fields)) = Except.error PyError.typeError) ∧
    ((∀ fs, v ≠ JsonValue.obj fs) →
      loadFromDisk (some v) = Except.error PyError.attributeError) ∧
    (loadConfigFile ConfigFile.invalidJson = Except.error PyError.jsonDecodeError) ∧
    (∀ e, loadConfigFile cf = Except.error e →
      e = PyError.jsonDecodeError ∨ e = PyError.attributeError ∨
        e = PyError.typeError) := by
  refine ⟨?_, ?_, ?_, rfl, ?_⟩
  · intro h1 hmiss
    have ha := authResponseFromJson_missing_required d hmiss
    have hc : cognitoFromJson (jsonGet fields "cognito") = Except.error PyError.typeError := by
      rw [h1]
      show (authResponseFromJson (JsonValue.obj d)).map some = _
      rw [ha]
      rfl
    unfold loadFromDisk
    simp only [hc]
  · intro hcok hdev hmem hno
    have hlist := deviceListFromJson_nonobj_member vs w hmem hno
    have hfield : devicesFieldFromJson (jsonGet fields "devices") =
        Except.error PyError.typeError := by
      rw [hdev]
      show devicesFromJson (JsonValue.arr vs) = _
      show deviceListFromJson vs = _
      exact hlist
    unfold loadFromDisk
    simp only [hcok, hfield]
  · intro hno
    rcases v with _ | b | n | s | es | fs
    · rfl
    · rfl
    · rfl
    · rfl
    · rfl
    · exact absurd rfl (hno fs)
  · intro e he
    rcases cf with _ | _ | dv
    · simp [loadConfigFile, loadFromDisk] at he
    · left
      simp only [loadConfigFile, Except.error.injEq] at he
      exact he.symm
    · exact Or.inr (loadFromDisk_error_classification dv e he)

/-- C8 witness: the amended theorem applied to a session object missing
`user_id`, a device list containing a string entry, a top-level array
document, and the classification at a failing parsed document. -/
theorem load_invalid_config_fails_builtin_error_witness :
    loadFromDisk (some (JsonValue.obj
      [("cognito", JsonValue.obj [("access_token", JsonValue.str "a")])])) =
      Except.error PyError.typeError ∧
    loadFromDisk (some (JsonValue.obj
      [("cognito", JsonValue.null),
       ("devices", JsonValue.arr [JsonValue.str "oops"])])) =
      Except.error PyError.typeError ∧
    loadFromDisk (some (JsonValue.arr [])) = Except.error PyError.attributeError ∧
    (PyError.attributeError = PyError.jsonDecodeError ∨
      PyError.attributeError = PyError.attributeError ∨
      PyError.attributeError = PyError.typeError) :=
  ⟨(load_invalid_config_fails_builtin_error
      [("cognito", JsonValue.obj [("access_token", JsonValue.str "a")])]
      [("access_token", JsonValue.str "a")] [] JsonValue.null JsonValue.null none
      ConfigFile.absent).1 rfl (Or.inl rfl),
   (load_invalid_config_fails_builtin_error
      [("cognito", JsonValue.null), ("devices", JsonValue.arr [JsonValue.str "oops"])]
      [] [JsonValue.str "oops"] JsonValue.null (JsonValue.str "oops") none
      ConfigFile.absent).2.1 rfl rfl (List.mem_cons_self _ _)
      (fun _ h => JsonValue.noConfusion h),
   (load_invalid_config_fails_builtin_error [] [] [] (JsonValue.arr []) JsonValue.null
      none ConfigFile.absent).2.2.1 (fun _ h => JsonValue.noConfusion h),
   (load_invalid_config_fails_builtin_error [] [] [] JsonValue.null JsonValue.null none
      (ConfigFile.parsed (JsonValue.arr []))).2.2.2.2 PyError.attributeError rfl⟩

end Winix
